import Mathlib

/-!
Verification of the TruckersMP API proxy (src/main.go) against its
specification.  The Go program is shallowly embedded: the generic
forwarding handler `proxyRequest`, the validation helper `validateID`
and the route registration of `setupRoutes` become executable Lean
functions, with the upstream HTTP call abstracted as an explicit
oracle argument and machine integers modelled with explicit range
checks.
-/

namespace TruckersMP

/-- Fixed upstream base URL (src/main.go line 17). -/
def TruckersMPAPIBase : String := "https://api.truckersmp.com/v2"

/-! ## Go standard-library fragments used by main.go -/

/-- Character-code classification used by net/http method validation:
the RFC 7230 token characters (letters, digits and the fifteen listed
symbols).  We work on Unicode code points; all relevant characters are
ASCII. -/
def isTokenCharCode (n : Nat) : Bool :=
  (decide (48 ≤ n) && decide (n ≤ 57)) ||
  (decide (65 ≤ n) && decide (n ≤ 90)) ||
  (decide (97 ≤ n) && decide (n ≤ 122)) ||
  decide (n = 33) || decide (n = 35) || decide (n = 36) || decide (n = 37) ||
  decide (n = 38) || decide (n = 39) || decide (n = 42) || decide (n = 43) ||
  decide (n = 45) || decide (n = 46) || decide (n = 94) || decide (n = 95) ||
  decide (n = 96) || decide (n = 124) || decide (n = 126)

/-- net/http NewRequest method check: an empty method defaults to GET,
otherwise every character must be a token character. -/
def goValidMethod (m : String) : Bool :=
  let mm := if m = "" then "GET" else m
  decide (mm.length > 0) && mm.toList.all (fun c => isTokenCharCode c.toNat)

/-- net/url Parse rejects ASCII control characters (below 0x20 and 0x7f);
all other URLs occurring in this program parse successfully. -/
def goURLOk (u : String) : Bool :=
  u.toList.all (fun c => decide (32 ≤ c.toNat) && decide (c.toNat ≠ 127))

/-- Decimal digit accumulator for strconv: returns the value of a
non-empty all-digit string, and none otherwise. -/
def decDigitsVal : List Char → Option Nat
  | [] => none
  | cs =>
    cs.foldl
      (fun acc c =>
        match acc with
        | none => none
        | some n =>
          if decide (48 ≤ c.toNat) && decide (c.toNat ≤ 57) then
            some (n * 10 + (c.toNat - 48))
          else none)
      (some 0)

/-- strconv.Atoi (equivalently ParseInt with base 10 and bit size 64):
an optional single plus or minus sign followed by one or more ASCII
digits, failing on any other character, on the empty string and on
values outside the signed 64-bit range. -/
def goAtoi (s : String) : Option Int :=
  match s.toList with
  | [] => none
  | c :: rest =>
    let signed : Bool × List Char :=
      if c = Char.ofNat 45 then (true, rest)
      else if c = Char.ofNat 43 then (false, rest)
      else (false, c :: rest)
    match decDigitsVal signed.2 with
    | none => none
    | some n =>
      if signed.1 then
        if decide (n ≤ 2 ^ 63) then some (-(n : Int)) else none
      else
        if decide (n ≤ 2 ^ 63 - 1) then some (n : Int) else none

/-! ## encoding/json validity (json.Unmarshal succeeding)

`json.Unmarshal(body, &v)` succeeds exactly when the bytes are a
syntactically valid JSON document: optional whitespace, one value,
optional whitespace, end of input.  The scanner below implements the
RFC 8259 grammar used by Go's scanner over Unicode code points
(bodies are modelled as text). -/

def jsonWSCode (n : Nat) : Bool :=
  decide (n = 32) || decide (n = 9) || decide (n = 10) || decide (n = 13)

def skipWS : List Nat → List Nat
  | [] => []
  | c :: cs => if jsonWSCode c then skipWS cs else c :: cs

def isDigitCode (n : Nat) : Bool := decide (48 ≤ n) && decide (n ≤ 57)

def isHexCode (n : Nat) : Bool :=
  isDigitCode n || (decide (65 ≤ n) && decide (n ≤ 70)) ||
    (decide (97 ≤ n) && decide (n ≤ 102))

def skipDigits : List Nat → List Nat
  | [] => []
  | c :: cs => if isDigitCode c then skipDigits cs else c :: cs

/-- Consume one or more decimal digits. -/
def digits1 : List Nat → Option (List Nat)
  | [] => none
  | c :: cs => if isDigitCode c then some (skipDigits cs) else none

/-- After the integer part of a number: optional fraction, optional
exponent. -/
def jsonFracExp (cs : List Nat) : Option (List Nat) :=
  let afterFrac : Option (List Nat) :=
    match cs with
    | 46 :: cs2 => digits1 cs2
    | _ => some cs
  match afterFrac with
  | none => none
  | some cs3 =>
    match cs3 with
    | e :: cs4 =>
      if decide (e = 101) || decide (e = 69) then
        match cs4 with
        | s :: cs5 =>
          if decide (s = 43) || decide (s = 45) then digits1 cs5 else digits1 cs4
        | [] => none
      else some cs3
    | [] => some cs3

/-- Integer part of a JSON number: a single zero, or a nonzero digit
followed by digits. -/
def jsonIntPart : List Nat → Option (List Nat)
  | [] => none
  | 48 :: cs => jsonFracExp cs
  | c :: cs =>
    if decide (49 ≤ c) && decide (c ≤ 57) then jsonFracExp (skipDigits cs)
    else none

/-- A JSON number: optional leading minus then integer part. -/
def jsonNumber : List Nat → Option (List Nat)
  | 45 :: cs => jsonIntPart cs
  | cs => jsonIntPart cs

/-- Fixed literal matcher for null, true, false tails. -/
def expectLit : List Nat → List Nat → Option (List Nat)
  | [], cs => some cs
  | _ :: _, [] => none
  | l :: ls, c :: cs => if c = l then expectLit ls cs else none

/-- Remainder of a JSON string after the opening quote: unescaped
characters must not be control characters; escapes are the eight
single-character escapes or a u followed by four hex digits. -/
def jsonStringRest : Nat → List Nat → Option (List Nat)
  | 0, _ => none
  | _ + 1, [] => none
  | fuel + 1, c :: cs =>
    if c = 34 then some cs
    else if c = 92 then
      match cs with
      | [] => none
      | e :: cs2 =>
        if decide (e = 34) || decide (e = 92) || decide (e = 47) ||
            decide (e = 98) || decide (e = 102) || decide (e = 110) ||
            decide (e = 114) || decide (e = 116) then
          jsonStringRest fuel cs2
        else if e = 117 then
          match cs2 with
          | h1 :: h2 :: h3 :: h4 :: cs3 =>
            if isHexCode h1 && isHexCode h2 && isHexCode h3 && isHexCode h4 then
              jsonStringRest fuel cs3
            else none
          | _ => none
        else none
    else if c < 32 then none
    else jsonStringRest fuel cs

mutual

/-- One JSON value starting at the head of the input (no leading
whitespace); returns the unconsumed remainder. -/
def jsonValue : Nat → List Nat → Option (List Nat)
  | 0, _ => none
  | fuel + 1, cs =>
    match cs with
    | [] => none
    | c :: cs2 =>
      if c = 110 then expectLit [117, 108, 108] cs2
      else if c = 116 then expectLit [114, 117, 101] cs2
      else if c = 102 then expectLit [97, 108, 115, 101] cs2
      else if c = 34 then jsonStringRest (cs2.length + 1) cs2
      else if c = 91 then jsonArrayRest fuel true (skipWS cs2)
      else if c = 123 then jsonObjectRest fuel (skipWS cs2)
      else jsonNumber cs

/-- Remainder of an array after the opening bracket and whitespace.
The flag records whether we are before the first element: a closing
bracket is accepted there (empty array) but not directly after a
comma, so trailing commas are rejected as in RFC 8259 and Go's
scanner. -/
def jsonArrayRest : Nat → Bool → List Nat → Option (List Nat)
  | 0, _, _ => none
  | fuel + 1, first, cs =>
    match cs with
    | 93 :: cs2 => if first then some cs2 else none
    | _ =>
      match jsonValue fuel cs with
      | none => none
      | some cs2 =>
        match skipWS cs2 with
        | 44 :: cs3 => jsonArrayRest fuel false (skipWS cs3)
        | 93 :: cs3 => some cs3
        | _ => none

/-- Remainder of an object after the opening brace and whitespace. -/
def jsonObjectRest : Nat → List Nat → Option (List Nat)
  | 0, _ => none
  | fuel + 1, cs =>
    match cs with
    | 125 :: cs2 => some cs2
    | 34 :: cs2 =>
      match jsonStringRest (cs2.length + 1) cs2 with
      | none => none
      | some cs3 =>
        match skipWS cs3 with
        | 58 :: cs4 =>
          match jsonValue fuel (skipWS cs4) with
          | none => none
          | some cs5 =>
            match skipWS cs5 with
            | 44 :: cs6 =>
              match skipWS cs6 with
              | 34 :: cs7 => jsonObjectRest fuel (34 :: cs7)
              | _ => none
            | 125 :: cs6 => some cs6
            | _ => none
        | _ => none
    | _ => none

end

/-- Success of json.Unmarshal on the body bytes. -/
def goJSONValid (s : String) : Bool :=
  let cs := s.toList.map Char.toNat
  match jsonValue (cs.length + 1) (skipWS cs) with
  | some rest => (skipWS rest).isEmpty
  | none => false

/-! ## net/http header model

Go's http.Header is a map from canonical header names to lists of
values; it is modelled as a function from names to value lists
(all names in this development are already canonical). -/

abbrev Header := String → List String

def Header.empty : Header := fun _ => []

/-- Header.Set: replace all values of a key with a single value. -/
def Header.set (h : Header) (k v : String) : Header :=
  fun q => if q = k then [v] else h q

/-- Header.Add: append one value to a key, keeping existing values. -/
def Header.add (h : Header) (k v : String) : Header :=
  fun q => if q = k then h q ++ [v] else h q

/-- Inbound request headers and upstream response headers are carried
as key/values pair lists (a snapshot of a Go map; keys canonical). -/
abbrev HeaderList := List (String × List String)

/-- Header.Get on a header list: the first value of the key, or the
empty string. -/
def headersGet (h : HeaderList) (k : String) : String :=
  match h.find? (fun kv => kv.1 == k) with
  | some kv => kv.2.headD ""
  | none => ""

/-- The double loop of src/main.go lines 51-55: for each inbound key,
Add every value (accumulating, never overwriting). -/
def copyReqHeaders (dst : Header) (src : HeaderList) : Header :=
  src.foldl (fun h kv => kv.2.foldl (fun h2 v => h2.add kv.1 v) h) dst

/-- The double loop of src/main.go lines 79-83: response headers are
copied with gin's c.Header, which calls Set for each value. -/
def copyRespHeaders (dst : Header) (src : HeaderList) : Header :=
  src.foldl (fun h kv => kv.2.foldl (fun h2 v => h2.set kv.1 v) h) dst

/-- All values carried for a key by a header list, in order. -/
def valuesFor : HeaderList → String → List String
  | [], _ => []
  | kv :: rest, q => (if q = kv.1 then kv.2 else []) ++ valuesFor rest q

/-! ## The Forwarder (proxyRequest, src/main.go lines 34-95) -/

/-- Upstream response as seen by the handler: status, header map and
the outcome of io.ReadAll on the body (none models a read error). -/
structure UpstreamResponse where
  statusCode : Nat
  header : HeaderList
  bodyRead : Option String

/-- Outcome of client.Do: a transport error (including timeout) or a
received reply. -/
inductive UpstreamOutcome
  | transportError
  | replied (resp : UpstreamResponse)

/-- The upstream request handed to client.Do. -/
structure UpstreamRequest where
  method : String
  url : String
  header : Header

/-- The two fixed defaults set by req.Header.Set at src/main.go
lines 40-41, before inbound headers are added. -/
def initialUpstreamHeader : Header :=
  (Header.empty.set "User-Agent" "PostmanRuntime/7.36.1").set
    "Accept" "application/json"

/-- http.NewRequest followed by the two Set calls and the inbound
header copy (src/main.go lines 39-55).  none models the error return
of http.NewRequest (invalid method token or unparsable URL); in that
case the Go code dereferences the nil request before reaching its
error check, see proxyRequest below. -/
def buildUpstreamRequest (method : String) (inHeader : HeaderList)
    (endpoint : String) : Option UpstreamRequest :=
  if goValidMethod method && goURLOk (TruckersMPAPIBase ++ endpoint) then
    some { method := method, url := TruckersMPAPIBase ++ endpoint,
           header := copyReqHeaders initialUpstreamHeader inHeader }
  else none

/-- Outbound body produced by proxyRequest: either the re-serialized
JSON of a body that json.Unmarshal accepted (c.JSON, line 91; the
re-encoding itself is not modelled further, see the C3 discussion), or
the raw bytes with the content type passed to c.Data (line 93). -/
inductive OutBody
  | jsonReencoded (raw : String)
  | raw (contentType : String) (bytes : String)
deriving DecidableEq

/-- Result of one proxyRequest invocation.  crashed models the nil
pointer dereference panic: when http.NewRequest fails it returns a nil
request, and lines 40-41 call req.Header.Set on it before the err
check on line 42, so the fixed 500 body of lines 43-47 is unreachable
(gin's recovery middleware turns the panic into a bare 500). -/
inductive ProxyResult
  | crashed
  | syntheticError (status : Nat) (message : String)
  | relayed (status : Nat) (header : Header) (body : OutBody)

/-- proxyRequest (src/main.go lines 34-95).  doCall is the HTTP
client; the second component of the result lists the upstream requests
actually issued. -/
def proxyRequest (method : String) (inHeader : HeaderList) (endpoint : String)
    (doCall : UpstreamRequest → UpstreamOutcome) :
    ProxyResult × List UpstreamRequest :=
  match buildUpstreamRequest method inHeader endpoint with
  | none => (ProxyResult.crashed, [])
  | some req =>
    match doCall req with
    | UpstreamOutcome.transportError =>
      (ProxyResult.syntheticError 500 "Failed to fetch data from TruckersMP API",
        [req])
    | UpstreamOutcome.replied resp =>
      match resp.bodyRead with
      | none => (ProxyResult.syntheticError 500 "Failed to read response", [req])
      | some body =>
        let outHeader := copyRespHeaders Header.empty resp.header
        if goJSONValid body then
          (ProxyResult.relayed resp.statusCode outHeader
            (OutBody.jsonReencoded body), [req])
        else
          (ProxyResult.relayed resp.statusCode outHeader
            (OutBody.raw (headersGet resp.header "Content-Type") body), [req])

/-- Status code written by a proxy result (none for the recovered
panic, whose status is supplied by gin, not by proxyRequest). -/
def statusOf : ProxyResult → Option Nat
  | ProxyResult.crashed => none
  | ProxyResult.syntheticError s _ => some s
  | ProxyResult.relayed s _ _ => some s

/-- Body of a relayed proxy result. -/
def outBodyOf : ProxyResult → Option OutBody
  | ProxyResult.relayed _ _ b => some b
  | _ => none

/-! ## Validation and routing (src/main.go lines 98-282) -/

/-- Synthetic responses written by handlers and middleware. -/
inductive Emission
  | errJson (status : Nat) (error : Bool) (message : String)
  | healthJson (status : Nat)
  | noBody (status : Nat)
deriving DecidableEq

/-- gin's c.Param: value of a matched path parameter, or the empty
string. -/
def ginParam (params : List (String × String)) (name : String) : String :=
  match params.find? (fun p => p.1 == name) with
  | some p => p.2
  | none => ""

/-- validateID (src/main.go lines 98-109): Atoi the parameter; on a
parse error or a negative value emit the fixed 400 JSON body and
report failure. -/
def validateID (params : List (String × String)) (paramName : String) :
    List Emission × Option Int :=
  match goAtoi (ginParam params paramName) with
  | some id =>
    if id < 0 then
      ([Emission.errJson 400 true ("Invalid " ++ paramName ++ " parameter")], none)
    else ([], some id)
  | none =>
    ([Emission.errJson 400 true ("Invalid " ++ paramName ++ " parameter")], none)

/-- The success condition of validateID: the string parses via Atoi to
a non-negative value (negation of err with value below zero at
src/main.go line 101). -/
def parsesAsNonneg (s : String) : Bool :=
  match goAtoi s with
  | some id => decide (0 ≤ id)
  | none => false

abbrev RouteHandler := List (String × String) → List Emission × Option String

/-- A route body with no path parameter: forward a fixed endpoint. -/
def staticHandler (ep : String) : RouteHandler := fun _ => ([], some ep)

/-- The /health handler (timestamp content abstracted). -/
def healthHandler : RouteHandler := fun _ => ([Emission.healthJson 200], none)

/-- A route body validating one numeric parameter before forwarding
(the shape of src/main.go lines 144-148 and its clones). -/
def oneParamHandler (pname : String) (mk : Int → String) : RouteHandler :=
  fun params =>
    match validateID params pname with
    | (em, none) => (em, none)
    | (em, some i) => (em, some (mk i))

/-- A route body validating two numeric parameters, the second only
when the first succeeded (src/main.go lines 201-207 and its clones). -/
def twoParamHandler (p1 p2 : String) (mk : Int → Int → String) : RouteHandler :=
  fun params =>
    match validateID params p1 with
    | (em1, none) => (em1, none)
    | (em1, some i) =>
      match validateID params p2 with
      | (em2, none) => (em1 ++ em2, none)
      | (em2, some j) => (em1 ++ em2, some (mk i j))

/-- One segment of a registered route pattern. -/
inductive Seg
  | lit (s : String)
  | param (name : String)
deriving DecidableEq

/-- Match a pattern against the segments of a request path, collecting
parameter bindings; a parameter segment matches any non-empty
segment. -/
def segMatch : List Seg → List String → Option (List (String × String))
  | [], [] => some []
  | Seg.lit s :: ps, x :: xs => if x = s then segMatch ps xs else none
  | Seg.param n :: ps, x :: xs =>
    if x = "" then none
    else
      match segMatch ps xs with
      | some bs => some ((n, x) :: bs)
      | none => none
  | _, _ => none

/-- GET /player/:id (src/main.go lines 144-148). -/
def playerRoute : List Seg × RouteHandler :=
  ([Seg.lit "player", Seg.param "id"],
   oneParamHandler "id" (fun i => "/player/" ++ toString i))

/-- GET /vtc/:id/news/:news_id (src/main.go lines 201-207). -/
def vtcNewsItemRoute : List Seg × RouteHandler :=
  ([Seg.lit "vtc", Seg.param "id", Seg.lit "news", Seg.param "news_id"],
   twoParamHandler "id" "news_id"
     (fun i j => "/vtc/" ++ toString i ++ "/news/" ++ toString j))

/-- The routes registered by setupRoutes, each with its upstream path
template (fmt.Sprintf with the validated ids).  Routes are listed in
registration order except that the static segment "attending" precedes
the parameter route of the same length, matching gin's radix tree,
which tries static child nodes before parameter nodes. -/
def routeTable : List (List Seg × RouteHandler) :=
  [([Seg.lit "health"], healthHandler),
   playerRoute,
   ([Seg.lit "bans", Seg.param "id"],
     oneParamHandler "id" (fun i => "/bans/" ++ toString i)),
   ([Seg.lit "servers"], staticHandler "/servers"),
   ([Seg.lit "game_time"], staticHandler "/game_time"),
   ([Seg.lit "events"], staticHandler "/events"),
   ([Seg.lit "events", Seg.param "id"],
     oneParamHandler "id" (fun i => "/events/" ++ toString i)),
   ([Seg.lit "events", Seg.lit "user", Seg.param "id"],
     oneParamHandler "id" (fun i => "/events/user/" ++ toString i)),
   ([Seg.lit "vtc"], staticHandler "/vtc"),
   ([Seg.lit "vtc", Seg.param "id"],
     oneParamHandler "id" (fun i => "/vtc/" ++ toString i)),
   ([Seg.lit "vtc", Seg.param "id", Seg.lit "news"],
     oneParamHandler "id" (fun i => "/vtc/" ++ toString i ++ "/news")),
   vtcNewsItemRoute,
   ([Seg.lit "vtc", Seg.param "id", Seg.lit "roles"],
     oneParamHandler "id" (fun i => "/vtc/" ++ toString i ++ "/roles")),
   ([Seg.lit "vtc", Seg.param "id", Seg.lit "role", Seg.param "role_id"],
     twoParamHandler "id" "role_id"
       (fun i j => "/vtc/" ++ toString i ++ "/role/" ++ toString j)),
   ([Seg.lit "vtc", Seg.param "id", Seg.lit "members"],
     oneParamHandler "id" (fun i => "/vtc/" ++ toString i ++ "/members")),
   ([Seg.lit "vtc", Seg.param "id", Seg.lit "member", Seg.param "member_id"],
     twoParamHandler "id" "member_id"
       (fun i j => "/vtc/" ++ toString i ++ "/member/" ++ toString j)),
   ([Seg.lit "vtc", Seg.param "id", Seg.lit "events"],
     oneParamHandler "id" (fun i => "/vtc/" ++ toString i ++ "/events")),
   ([Seg.lit "vtc", Seg.param "id", Seg.lit "events", Seg.lit "attending"],
     oneParamHandler "id" (fun i => "/vtc/" ++ toString i ++ "/events/attending")),
   ([Seg.lit "vtc", Seg.param "id", Seg.lit "events", Seg.param "event_id"],
     twoParamHandler "id" "event_id"
       (fun i j => "/vtc/" ++ toString i ++ "/events/" ++ toString j)),
   ([Seg.lit "vtc", Seg.param "id", Seg.lit "partners"],
     oneParamHandler "id" (fun i => "/vtc/" ++ toString i ++ "/partners")),
   ([Seg.lit "version"], staticHandler "/version"),
   ([Seg.lit "rules"], staticHandler "/rules")]

/-- First route whose pattern matches the path. -/
def findRoute : List (List Seg × RouteHandler) → List String →
    Option (List (String × String) × RouteHandler)
  | [], _ => none
  | r :: rs, path =>
    match segMatch r.1 path with
    | some params => some (params, r.2)
    | none => findRoute rs path

/-- One request through the middleware and router (src/main.go lines
121-132 and 274-279): OPTIONS short-circuits with 204; GET requests
are dispatched against the route table; every route is registered for
GET only, so any other method falls to the NoRoute handler.  The
result pairs the synthetic emissions with the endpoint forwarded to
the proxy, if any. -/
def dispatch (method : String) (path : List String) :
    List Emission × Option String :=
  if method = "OPTIONS" then ([Emission.noBody 204], none)
  else if method = "GET" then
    match findRoute routeTable path with
    | some pr => pr.2 pr.1
    | none => ([Emission.errJson 404 true "Endpoint not found"], none)
  else ([Emission.errJson 404 true "Endpoint not found"], none)

/-- Upstream requests issued for one dispatched request: none when the
router produced no forward, otherwise those issued by proxyRequest. -/
def upstreamCalls (method : String) (path : List String) (inHeader : HeaderList)
    (doCall : UpstreamRequest → UpstreamOutcome) : List UpstreamRequest :=
  match (dispatch method path).2 with
  | none => []
  | some ep => (proxyRequest method inHeader ep doCall).2

/-! ## Concrete values used by witness theorems -/

def demoResp : UpstreamResponse :=
  { statusCode := 418, header := [("Content-Type", ["text/plain"])],
    bodyRead := some "hi" }

def demoCall : UpstreamRequest → UpstreamOutcome :=
  fun _ => UpstreamOutcome.replied demoResp

def demoReq : UpstreamRequest :=
  { method := "GET", url := TruckersMPAPIBase ++ "/servers",
    header := copyReqHeaders initialUpstreamHeader [] }

def demoInHeader : HeaderList :=
  [("Accept", ["text/html"]), ("X-Custom", ["a", "b"])]

def demoReq2 : UpstreamRequest :=
  { method := "GET", url := TruckersMPAPIBase ++ "/servers",
    header := copyReqHeaders initialUpstreamHeader demoInHeader }

def demoPlayerTemplate : Int → String := fun i => "/player/" ++ toString i

def demoNewsTemplate : Int → Int → String :=
  fun i j => "/vtc/" ++ toString i ++ "/news/" ++ toString j

/-! ## Helper lemmas -/

theorem validateID_of_invalid (params : List (String × String)) (n : String)
    (h : parsesAsNonneg (ginParam params n) = false) :
    validateID params n =
      ([Emission.errJson 400 true ("Invalid " ++ n ++ " parameter")], none) := by
  unfold validateID
  cases hg : goAtoi (ginParam params n) with
  | none => rfl
  | some i =>
    unfold parsesAsNonneg at h
    rw [hg] at h
    simp only [decide_eq_false_iff_not, Int.not_le] at h
    simp [h]

theorem validateID_of_valid (params : List (String × String)) (n : String)
    (i : Int) (hg : goAtoi (ginParam params n) = some i) (hi : 0 ≤ i) :
    validateID params n = ([], some i) := by
  unfold validateID
  rw [hg]
  simp [Int.not_lt.mpr hi]

theorem parsesAsNonneg_iff (s : String) :
    parsesAsNonneg s = true ↔ ∃ i, goAtoi s = some i ∧ 0 ≤ i := by
  unfold parsesAsNonneg
  cases hg : goAtoi s with
  | none => simp
  | some i => simp

/-- Shape of proxyRequest when the upstream reply arrives and the body
is read successfully. -/
theorem proxyRequest_replied (method : String) (inHeader : HeaderList)
    (endpoint : String) (doCall : UpstreamRequest → UpstreamOutcome)
    (req : UpstreamRequest) (resp : UpstreamResponse) (body : String)
    (hreq : buildUpstreamRequest method inHeader endpoint = some req)
    (hcall : doCall req = UpstreamOutcome.replied resp)
    (hbody : resp.bodyRead = some body) :
    proxyRequest method inHeader endpoint doCall =
      ((if goJSONValid body then
          ProxyResult.relayed resp.statusCode
            (copyRespHeaders Header.empty resp.header)
            (OutBody.jsonReencoded body)
        else
          ProxyResult.relayed resp.statusCode
            (copyRespHeaders Header.empty resp.header)
            (OutBody.raw (headersGet resp.header "Content-Type") body)),
        [req]) := by
  simp only [proxyRequest, hreq, hcall, hbody]
  split <;> rfl

/-! ## Claim theorems -/

/-- C1: whenever the Forwarder receives an upstream reply and reads
its body successfully, the outbound status code equals the upstream
status code, for every status value including 4xx and 5xx; conversely
every relayed result carries the status of a received upstream reply,
and every synthetic response emitted by proxyRequest itself has
status 500 (the synthetic 400 responses are emitted by validateID
before proxyRequest runs). -/
theorem relayed_status_equals_upstream (method : String) (inHeader : HeaderList)
    (endpoint : String) (doCall : UpstreamRequest → UpstreamOutcome) :
    (∀ req resp body,
        buildUpstreamRequest method inHeader endpoint = some req →
        doCall req = UpstreamOutcome.replied resp →
        resp.bodyRead = some body →
        statusOf (proxyRequest method inHeader endpoint doCall).1 =
          some resp.statusCode) ∧
    (∀ s hdr ob,
        (proxyRequest method inHeader endpoint doCall).1 =
          ProxyResult.relayed s hdr ob →
        ∃ req resp,
          buildUpstreamRequest method inHeader endpoint = some req ∧
          doCall req = UpstreamOutcome.replied resp ∧ s = resp.statusCode) ∧
    (∀ s msg,
        (proxyRequest method inHeader endpoint doCall).1 =
          ProxyResult.syntheticError s msg → s = 500) := by
  refine ⟨?_, ?_, ?_⟩
  · intro req resp body hreq hcall hbody
    rw [proxyRequest_replied method inHeader endpoint doCall req resp body
      hreq hcall hbody]
    by_cases hj : goJSONValid body = true
    · rw [if_pos hj]; rfl
    · rw [if_neg hj]; rfl
  · intro s hdr ob hrel
    cases hb : buildUpstreamRequest method inHeader endpoint with
    | none =>
      have hP : (proxyRequest method inHeader endpoint doCall).1 =
          ProxyResult.crashed := by
        simp only [proxyRequest, hb]
      rw [hP] at hrel
      cases hrel
    | some req =>
      cases hc : doCall req with
      | transportError =>
        have hP : (proxyRequest method inHeader endpoint doCall).1 =
            ProxyResult.syntheticError 500
              "Failed to fetch data from TruckersMP API" := by
          simp only [proxyRequest, hb, hc]
        rw [hP] at hrel
        cases hrel
      | replied resp =>
        cases hbr : resp.bodyRead with
        | none =>
          have hP : (proxyRequest method inHeader endpoint doCall).1 =
              ProxyResult.syntheticError 500 "Failed to read response" := by
            simp only [proxyRequest, hb, hc, hbr]
          rw [hP] at hrel
          cases hrel
        | some body =>
          refine ⟨req, resp, rfl, hc, ?_⟩
          have hP := proxyRequest_replied method inHeader endpoint doCall req
            resp body hb hc hbr
          by_cases hj : goJSONValid body = true
          · rw [hP, if_pos hj] at hrel
            injection hrel with h1 h2 h3
            exact h1.symm
          · rw [hP, if_neg hj] at hrel
            injection hrel with h1 h2 h3
            exact h1.symm
  · intro s msg hsyn
    cases hb : buildUpstreamRequest method inHeader endpoint with
    | none =>
      have hP : (proxyRequest method inHeader endpoint doCall).1 =
          ProxyResult.crashed := by
        simp only [proxyRequest, hb]
      rw [hP] at hsyn
      cases hsyn
    | some req =>
      cases hc : doCall req with
      | transportError =>
        have hP : (proxyRequest method inHeader endpoint doCall).1 =
            ProxyResult.syntheticError 500
              "Failed to fetch data from TruckersMP API" := by
          simp only [proxyRequest, hb, hc]
        rw [hP] at hsyn
        injection hsyn with h1 h2
        exact h1.symm
      | replied resp =>
        cases hbr : resp.bodyRead with
        | none =>
          have hP : (proxyRequest method inHeader endpoint doCall).1 =
              ProxyResult.syntheticError 500 "Failed to read response" := by
            simp only [proxyRequest, hb, hc, hbr]
          rw [hP] at hsyn
          injection hsyn with h1 h2
          exact h1.symm
        | some body =>
          have hP := proxyRequest_replied method inHeader endpoint doCall req
            resp body hb hc hbr
          by_cases hj : goJSONValid body = true
          · rw [hP, if_pos hj] at hsyn
            cases hsyn
          · rw [hP, if_neg hj] at hsyn
            cases hsyn

theorem relayed_status_equals_upstream_witness :
    statusOf (proxyRequest "GET" [] "/servers" demoCall).1 = some 418 :=
  (relayed_status_equals_upstream "GET" [] "/servers" demoCall).1 demoReq
    demoResp "hi" rfl rfl rfl

/-- C2 (refuting evaluation): when http.NewRequest fails -- here an
inbound method that is not a valid HTTP token -- the handler does not
produce the fixed 500 body of src/main.go lines 43-47: it dereferences
the nil request at lines 40-41, before the error check, and panics;
no upstream call is issued. -/
theorem construction_failure_dereferences_nil :
    proxyRequest "FOO BAR" [] "/servers"
      (fun _ => UpstreamOutcome.transportError) =
      (ProxyResult.crashed, []) := rfl

/-- C4: for every route with a numeric path parameter (every such
route goes through validateID, as oneParamHandler or twoParamHandler)
and every parameter string that does not parse as a non-negative
integer, the handler emits exactly the 400 response with body error
true and the message naming that parameter, forwards nothing, and so
no upstream call is made; illustrated on the dispatched player and
bans routes. -/
theorem invalid_param_rejected_with_400 :
    (∀ pname mk params, parsesAsNonneg (ginParam params pname) = false →
        oneParamHandler pname mk params =
          ([Emission.errJson 400 true ("Invalid " ++ pname ++ " parameter")],
            none)) ∧
    (∀ p1 p2 mk params, parsesAsNonneg (ginParam params p1) = false →
        twoParamHandler p1 p2 mk params =
          ([Emission.errJson 400 true ("Invalid " ++ p1 ++ " parameter")],
            none)) ∧
    (∀ p1 p2 mk params, parsesAsNonneg (ginParam params p1) = true →
        parsesAsNonneg (ginParam params p2) = false →
        twoParamHandler p1 p2 mk params =
          ([Emission.errJson 400 true ("Invalid " ++ p2 ++ " parameter")],
            none)) ∧
    (∀ method path inHeader doCall, (dispatch method path).2 = none →
        upstreamCalls method path inHeader doCall = []) ∧
    dispatch "GET" ["player", "abc"] =
      ([Emission.errJson 400 true "Invalid id parameter"], none) ∧
    dispatch "GET" ["bans", "-1"] =
      ([Emission.errJson 400 true "Invalid id parameter"], none) := by
  refine ⟨?_, ?_, ?_, ?_, by decide, by decide⟩
  · intro pname mk params h
    unfold oneParamHandler
    rw [validateID_of_invalid params pname h]
  · intro p1 p2 mk params h
    unfold twoParamHandler
    rw [validateID_of_invalid params p1 h]
  · intro p1 p2 mk params h1 h2
    obtain ⟨i, hg, hi⟩ := (parsesAsNonneg_iff _).mp h1
    unfold twoParamHandler
    rw [validateID_of_valid params p1 i hg hi,
      validateID_of_invalid params p2 h2]
    rfl
  · intro method path inHeader doCall h
    unfold upstreamCalls
    rw [h]

theorem invalid_param_rejected_with_400_witness :
    oneParamHandler "id" demoPlayerTemplate [("id", "abc")] =
      ([Emission.errJson 400 true "Invalid id parameter"], none) :=
  invalid_param_rejected_with_400.1 "id" demoPlayerTemplate [("id", "abc")]
    (by decide)

theorem copyReqHeaders_cons (h : Header) (kv : String × List String)
    (rest : HeaderList) :
    copyReqHeaders h (kv :: rest) =
      copyReqHeaders (kv.2.foldl (fun h2 v => h2.add kv.1 v) h) rest := rfl

theorem addAll_apply (k : String) (vs : List String) (h : Header) (q : String) :
    (vs.foldl (fun h2 v => h2.add k v) h) q =
      h q ++ (if q = k then vs else []) := by
  induction vs generalizing h with
  | nil => by_cases hq : q = k <;> simp [hq]
  | cons v vs ih =>
    simp only [List.foldl_cons, ih]
    by_cases hq : q = k
    · simp [Header.add, hq]
    · simp [Header.add, hq]

theorem copyReqHeaders_apply (src : HeaderList) (h : Header) (q : String) :
    copyReqHeaders h src q = h q ++ valuesFor src q := by
  induction src generalizing h with
  | nil => simp [copyReqHeaders, valuesFor]
  | cons kv rest ih =>
    rw [copyReqHeaders_cons, ih, addAll_apply, valuesFor]
    simp [List.append_assoc]

/-- C5: the header set of the upstream request is built by first
setting the fixed User-Agent and Accept defaults and then adding every
(name, value) pair of the inbound request, duplicate names
accumulating after the defaults rather than overwriting them. -/
theorem upstream_headers_defaults_then_inbound :
    (∀ method inHeader endpoint req,
        buildUpstreamRequest method inHeader endpoint = some req →
        ∀ k, req.header k = initialUpstreamHeader k ++ valuesFor inHeader k) ∧
    initialUpstreamHeader "User-Agent" = ["PostmanRuntime/7.36.1"] ∧
    initialUpstreamHeader "Accept" = ["application/json"] ∧
    (∀ k, k ≠ "User-Agent" → k ≠ "Accept" → initialUpstreamHeader k = []) := by
  refine ⟨?_, rfl, rfl, ?_⟩
  · intro method inHeader endpoint req hreq k
    unfold buildUpstreamRequest at hreq
    split at hreq
    · injection hreq with h
      rw [← h]
      exact copyReqHeaders_apply inHeader initialUpstreamHeader k
    · cases hreq
  · intro k h1 h2
    simp [initialUpstreamHeader, Header.set, Header.empty, h1, h2]

theorem upstream_headers_defaults_then_inbound_witness :
    demoReq2.header "Accept" = ["application/json", "text/html"] :=
  (upstream_headers_defaults_then_inbound.1 "GET" demoInHeader "/servers"
    demoReq2 rfl "Accept").trans rfl

/-- C6: a route requiring two numeric path parameters validates both
before forwarding; if either fails, the Forwarder is never invoked and
exactly one 400 response is produced, and a forward happens only when
both parameters validate. -/
theorem two_param_routes_validate_both (p1 p2 : String)
    (mk : Int → Int → String) (params : List (String × String)) :
    ((parsesAsNonneg (ginParam params p1) = false ∨
        parsesAsNonneg (ginParam params p2) = false) →
      (twoParamHandler p1 p2 mk params).2 = none ∧
      (twoParamHandler p1 p2 mk params).1.length = 1 ∧
      ∀ e ∈ (twoParamHandler p1 p2 mk params).1, ∃ pn,
        (pn = p1 ∨ pn = p2) ∧
        e = Emission.errJson 400 true ("Invalid " ++ pn ++ " parameter")) ∧
    (∀ ep, (twoParamHandler p1 p2 mk params).2 = some ep →
      parsesAsNonneg (ginParam params p1) = true ∧
      parsesAsNonneg (ginParam params p2) = true) := by
  by_cases h1 : parsesAsNonneg (ginParam params p1) = true
  · obtain ⟨i, hg1, hi1⟩ := (parsesAsNonneg_iff _).mp h1
    by_cases h2 : parsesAsNonneg (ginParam params p2) = true
    · obtain ⟨j, hg2, hi2⟩ := (parsesAsNonneg_iff _).mp h2
      have hT : twoParamHandler p1 p2 mk params = ([], some (mk i j)) := by
        unfold twoParamHandler
        rw [validateID_of_valid params p1 i hg1 hi1,
          validateID_of_valid params p2 j hg2 hi2]
        rfl
      rw [hT]
      constructor
      · rintro (hf | hf)
        · rw [h1] at hf; cases hf
        · rw [h2] at hf; cases hf
      · intro ep _
        exact ⟨h1, h2⟩
    · have h2f : parsesAsNonneg (ginParam params p2) = false :=
        Bool.eq_false_iff.mpr h2
      have hT : twoParamHandler p1 p2 mk params =
          ([Emission.errJson 400 true ("Invalid " ++ p2 ++ " parameter")],
            none) := by
        unfold twoParamHandler
        rw [validateID_of_valid params p1 i hg1 hi1,
          validateID_of_invalid params p2 h2f]
        rfl
      rw [hT]
      constructor
      · intro _
        refine ⟨rfl, rfl, ?_⟩
        intro e he
        simp only [List.mem_singleton] at he
        exact ⟨p2, Or.inr rfl, he⟩
      · intro ep hep
        cases hep
  · have h1f : parsesAsNonneg (ginParam params p1) = false :=
      Bool.eq_false_iff.mpr h1
    have hT : twoParamHandler p1 p2 mk params =
        ([Emission.errJson 400 true ("Invalid " ++ p1 ++ " parameter")],
          none) := by
      unfold twoParamHandler
      rw [validateID_of_invalid params p1 h1f]
    rw [hT]
    constructor
    · intro _
      refine ⟨rfl, rfl, ?_⟩
      intro e he
      simp only [List.mem_singleton] at he
      exact ⟨p1, Or.inl rfl, he⟩
    · intro ep hep
      cases hep

theorem two_param_routes_validate_both_witness :
    (twoParamHandler "id" "news_id" demoNewsTemplate
        [("id", "5"), ("news_id", "-3")]).2 = none ∧
    (twoParamHandler "id" "news_id" demoNewsTemplate
        [("id", "5"), ("news_id", "-3")]).1.length = 1 :=
  have h := (two_param_routes_validate_both "id" "news_id" demoNewsTemplate
    [("id", "5"), ("news_id", "-3")]).1 (Or.inr (by decide))
  ⟨h.1, h.2.1⟩

/-- C8: the upstream URL is always the fixed base URL concatenated
with the forwarded path, and for valid non-negative parameters a route
handler forwards exactly its declared template instantiated with the
parsed values; the declared /vtc/:id/news/:news_id mapping is checked
end to end on /vtc/5/news/12. -/
theorem upstream_path_matches_route :
    (∀ method inHeader endpoint req,
        buildUpstreamRequest method inHeader endpoint = some req →
        req.url = TruckersMPAPIBase ++ endpoint) ∧
    (∀ pname mk params i, goAtoi (ginParam params pname) = some i → 0 ≤ i →
        oneParamHandler pname mk params = ([], some (mk i))) ∧
    (∀ p1 p2 mk params i j,
        goAtoi (ginParam params p1) = some i → 0 ≤ i →
        goAtoi (ginParam params p2) = some j → 0 ≤ j →
        twoParamHandler p1 p2 mk params = ([], some (mk i j))) ∧
    dispatch "GET" ["vtc", "5", "news", "12"] = ([], some "/vtc/5/news/12") ∧
    vtcNewsItemRoute.2 [("id", "5"), ("news_id", "12")] =
      ([], some "/vtc/5/news/12") := by
  refine ⟨?_, ?_, ?_, by decide, by decide⟩
  · intro method inHeader endpoint req hreq
    unfold buildUpstreamRequest at hreq
    split at hreq
    · injection hreq with h
      rw [← h]
    · cases hreq
  · intro pname mk params i hg hi
    unfold oneParamHandler
    rw [validateID_of_valid params pname i hg hi]
  · intro p1 p2 mk params i j hg1 hi1 hg2 hi2
    unfold twoParamHandler
    rw [validateID_of_valid params p1 i hg1 hi1,
      validateID_of_valid params p2 j hg2 hi2]
    rfl

theorem upstream_path_matches_route_witness :
    oneParamHandler "id" demoPlayerTemplate [("id", "5")] =
      ([], some (demoPlayerTemplate 5)) ∧
    demoPlayerTemplate 5 = "/player/5" :=
  ⟨upstream_path_matches_route.2.1 "id" demoPlayerTemplate [("id", "5")] 5
      (by decide) (by decide), by decide⟩

/-- C9: every parameter string accepted by Atoi with a non-negative
value -- including non-canonical forms such as 007 or +7 -- passes
validation, and the forwarded upstream path contains the canonical
decimal rendering of the parsed value, which may differ textually from
the inbound segment. -/
theorem noncanonical_param_forwarded_canonical :
    (∀ s i, goAtoi s = some i → 0 ≤ i →
        playerRoute.2 [("id", s)] =
          ([], some ("/player/" ++ toString i))) ∧
    dispatch "GET" ["player", "007"] = ([], some "/player/7") ∧
    dispatch "GET" ["player", "+7"] = ([], some "/player/7") := by
  refine ⟨?_, by decide, by decide⟩
  intro s i hg hi
  show oneParamHandler "id" (fun j => "/player/" ++ toString j) [("id", s)] = _
  unfold oneParamHandler
  rw [validateID_of_valid [("id", s)] "id" i hg hi]

theorem noncanonical_param_forwarded_canonical_witness :
    playerRoute.2 [("id", "007")] =
      ([], some ("/player/" ++ toString (7 : Int))) :=
  noncanonical_param_forwarded_canonical.1 "007" 7 (by decide) (by decide)

/-- C10: a request whose method is neither GET nor OPTIONS receives
the synthetic 404 Endpoint-not-found body whatever its path (every
route is registered for GET only, so such requests fall to the
catch-all NoRoute handler), and no upstream call occurs. -/
theorem non_get_method_not_found (method : String) (path : List String)
    (hget : method ≠ "GET") (hopt : method ≠ "OPTIONS") :
    dispatch method path =
      ([Emission.errJson 404 true "Endpoint not found"], none) ∧
    (∀ inHeader doCall, upstreamCalls method path inHeader doCall = []) := by
  have hd : dispatch method path =
      ([Emission.errJson 404 true "Endpoint not found"], none) := by
    unfold dispatch
    rw [if_neg hopt, if_neg hget]
  refine ⟨hd, ?_⟩
  intro inHeader doCall
  unfold upstreamCalls
  rw [hd]

theorem non_get_method_not_found_witness :
    dispatch "POST" ["player", "5"] =
      ([Emission.errJson 404 true "Endpoint not found"], none) :=
  (non_get_method_not_found "POST" ["player", "5"] (by decide) (by decide)).1

end TruckersMP
